import Mathlib

/-!
Verification of the MahaInsight session-token subsystem against its design
specification.  The Python sources (`auth/jwt_utils.py`, `auth/routes.py`,
`auth/auth_middleware.py`, `db.py`, the quota part of `app.py`, and the table
schema printed by `migrate_db.py`) are embedded shallowly: every database call
becomes a pure function on an explicit store, timestamps are integer UNIX
seconds (PyJWT itself truncates datetimes to integer seconds when encoding
`iat`/`exp`), and `hashlib.sha256(...).hexdigest()` is embedded as a full
executable SHA-256 over the UTF-8 bytes of the input string.

PyJWT's `jwt.encode`/`jwt.decode` pair is embedded by carrying the decoded
payload inside the token value (`EncodedJwt`) together with a fixed
deterministic serialization `EncodedJwt.toStr` standing for the signed JWS
string; signature forgery is outside the model (no claim concerns it), and
`jwt.decode`'s claim validation (the `exp <= now` check of
`ExpiredSignatureError`) is embedded explicitly in the verify functions.
-/

set_option maxRecDepth 8000

/-! ## SHA-256 (hashlib.sha256(...).hexdigest()) -/

/-- Truncate a natural number to a 32-bit word. -/
def w32 (n : Nat) : Nat := n % 4294967296

/-- Right rotation of a 32-bit word. -/
def rotr32 (x n : Nat) : Nat := (x >>> n) ||| w32 (x <<< (32 - n))

/-- SHA-256 choice function. -/
def shaCh (x y z : Nat) : Nat := (x &&& y) ^^^ ((4294967295 - x) &&& z)

/-- SHA-256 majority function. -/
def shaMaj (x y z : Nat) : Nat := (x &&& y) ^^^ (x &&& z) ^^^ (y &&& z)

def bigSigma0 (x : Nat) : Nat := rotr32 x 2 ^^^ rotr32 x 13 ^^^ rotr32 x 22

def bigSigma1 (x : Nat) : Nat := rotr32 x 6 ^^^ rotr32 x 11 ^^^ rotr32 x 25

def smallSigma0 (x : Nat) : Nat := rotr32 x 7 ^^^ rotr32 x 18 ^^^ (x >>> 3)

def smallSigma1 (x : Nat) : Nat := rotr32 x 17 ^^^ rotr32 x 19 ^^^ (x >>> 10)

/-- The 64 SHA-256 round constants. -/
def K256 : List Nat :=
  [1116352408, 1899447441, 3049323471, 3921009573, 961987163,
   1508970993, 2453635748, 2870763221, 3624381080, 310598401,
   607225278, 1426881987, 1925078388, 2162078206, 2614888103,
   3248222580, 3835390401, 4022224774, 264347078, 604807628,
   770255983, 1249150122, 1555081692, 1996064986, 2554220882,
   2821834349, 2952996808, 3210313671, 3336571891, 3584528711,
   113926993, 338241895, 666307205, 773529912, 1294757372,
   1396182291, 1695183700, 1986661051, 2177026350, 2456956037,
   2730485921, 2820302411, 3259730800, 3345764771, 3516065817,
   3600352804, 4094571909, 275423344, 430227734, 506948616,
   659060556, 883997877, 958139571, 1322822218, 1537002063,
   1747873779, 1955562222, 2024104815, 2227730452, 2361852424,
   2428436474, 2756734187, 3204031479, 3329325298]

/-- Initial SHA-256 hash state. -/
def H256 : List Nat :=
  [1779033703, 3144134277, 1013904242, 2773480762,
   1359893119, 2600822924, 528734635, 1541459225]

/-- Iterate a function a fixed number of times. -/
def iterateN {α : Type} (f : α → α) : Nat → α → α
  | 0, a => a
  | n + 1, a => iterateN f n (f a)

/-- One extension step of the SHA-256 message schedule. -/
def scheduleStep (ws : List Nat) : List Nat :=
  let t := ws.length
  ws ++ [w32 (smallSigma1 (ws.getD (t - 2) 0) + ws.getD (t - 7) 0 +
              smallSigma0 (ws.getD (t - 15) 0) + ws.getD (t - 16) 0)]

/-- Extend the 16 block words to the full 64-entry message schedule. -/
def fullSchedule (block16 : List Nat) : List Nat := iterateN scheduleStep 48 block16

/-- Pack big-endian bytes into 32-bit words. -/
def bytesToWords : List Nat → List Nat
  | b0 :: b1 :: b2 :: b3 :: rest => (((b0 * 256 + b1) * 256 + b2) * 256 + b3) :: bytesToWords rest
  | _ => []

/-- One SHA-256 compression round on the working state [a,b,c,d,e,f,g,h]. -/
def compressRound (st : List Nat) (kw : Nat × Nat) : List Nat :=
  match st with
  | [a, b, c, d, e, f, g, h] =>
    let t1 := w32 (h + bigSigma1 e + shaCh e f g + kw.1 + kw.2)
    let t2 := w32 (bigSigma0 a + shaMaj a b c)
    [w32 (t1 + t2), a, b, c, w32 (d + t1), e, f, g]
  | other => other

/-- Process one 64-byte block. -/
def processBlock (H : List Nat) (block : List Nat) : List Nat :=
  let W := fullSchedule (bytesToWords block)
  let st := (K256.zip W).foldl compressRound H
  (H.zip st).map (fun p => w32 (p.1 + p.2))

/-- Big-endian byte rendering of a number, fixed width. -/
def natToBytesBE : Nat → Nat → List Nat
  | 0, _ => []
  | k + 1, n => natToBytesBE k (n / 256) ++ [n % 256]

/-- SHA-256 padding: 0x80, zeros, then the 64-bit big-endian bit length. -/
def shaPad (msg : List Nat) : List Nat :=
  let len := msg.length
  msg ++ (128 :: List.replicate ((119 - len % 64) % 64) 0) ++ natToBytesBE 8 (len * 8)

/-- Split into 64-byte blocks (fuelled structural recursion). -/
def toBlocksAux : Nat → List Nat → List (List Nat)
  | 0, _ => []
  | _, [] => []
  | fuel + 1, l => l.take 64 :: toBlocksAux fuel (l.drop 64)

/-- SHA-256 digest of a byte list, as eight 32-bit words. -/
def sha256words (msg : List Nat) : List Nat :=
  let padded := shaPad msg
  (toBlocksAux (padded.length / 64) padded).foldl processBlock H256

/-- Lowercase hex digit for a value below 16 (48 is the code point of the
digit zero, 97 that of the letter a). -/
def hexDigitChar (n : Nat) : Char :=
  if n < 10 then Char.ofNat (48 + n) else Char.ofNat (87 + n)

/-- Lowercase hex rendering of one 32-bit word. -/
def wordHex (n : Nat) : List Char :=
  (List.range 8).map (fun i => hexDigitChar (n / 16 ^ (7 - i) % 16))

/-- SHA-256 hex digest of a byte list, as produced by hexdigest(). -/
def sha256hex (msg : List Nat) : String := String.mk ((sha256words msg).map wordHex).flatten

/-- UTF-8 encoding of one Unicode code point. -/
def utf8EncodeCharNat (n : Nat) : List Nat :=
  if n < 128 then [n]
  else if n < 2048 then [192 + n / 64, 128 + n % 64]
  else if n < 65536 then [224 + n / 4096, 128 + n / 64 % 64, 128 + n % 64]
  else [240 + n / 262144, 128 + n / 4096 % 64, 128 + n / 64 % 64, 128 + n % 64]

/-- UTF-8 bytes of a string, as Python's str.encode(). -/
def strBytes (s : String) : List Nat := (s.data.map (fun c => utf8EncodeCharNat c.toNat)).flatten

/-- jwt_utils.hash_token: SHA-256 hex digest of the UTF-8 encoded token string. -/
def hash_token (token : String) : String := sha256hex (strBytes token)

/-! ## TokenCodec (auth/jwt_utils.py) -/

/-- Decoded JWT claim set.  Refresh tokens carry no email / is_admin claim, so
those fields are optional, matching dict.get on the decoded payload. -/
structure JwtPayload where
  user_id : Nat
  email : Option String
  is_admin : Option Bool
  type : String
  iat : Int
  exp : Int
deriving DecidableEq, Repr

/-- A well-signed encoded JWT, carrying its payload.  Values of this type model
exactly the strings produced by jwt.encode under the process secret; forged or
malformed strings are outside the model. -/
structure EncodedJwt where
  payload : JwtPayload
deriving DecidableEq, Repr

/-- Models the serialized JWS string of a token: a fixed deterministic function
of the payload (PyJWT with a fixed key and HS256 is deterministic, so two
encode calls on equal payloads yield the identical string).  Only determinism
of this function matters to the claims; the concrete rendering is arbitrary. -/
def EncodedJwt.toStr (t : EncodedJwt) : String :=
  "hdr." ++ toString t.payload.user_id ++ "." ++ t.payload.email.getD "" ++ "." ++
    (match t.payload.is_admin with
     | some true => "T"
     | some false => "F"
     | none => "N") ++ "." ++ t.payload.type ++ "." ++ toString t.payload.iat ++ "." ++
    toString t.payload.exp ++ ".sig"

/-- JWT_ACCESS_TOKEN_EXPIRES default: 900 seconds (15 minutes). -/
def ACCESS_TOKEN_EXPIRES : Int := 900

/-- JWT_REFRESH_TOKEN_EXPIRES default: 2592000 seconds (30 days). -/
def REFRESH_TOKEN_EXPIRES : Int := 2592000

/-- jwt_utils.generate_access_token.  `now` is the ambient clock
(datetime.now(timezone.utc), truncated to seconds by PyJWT). -/
def generate_access_token (now : Int) (user_id : Nat) (email : String)
    (is_admin : Bool) : EncodedJwt :=
  ⟨{ user_id := user_id, email := some email, is_admin := some is_admin,
     type := "access", iat := now, exp := now + ACCESS_TOKEN_EXPIRES }⟩

/-- jwt_utils.generate_refresh_token: returns the token together with the
SHA-256 hash of its encoded form (computed inline in the source via
hashlib.sha256(token.encode()).hexdigest()). -/
def generate_refresh_token (now : Int) (user_id : Nat) : EncodedJwt × String :=
  let token : EncodedJwt :=
    ⟨{ user_id := user_id, email := none, is_admin := none,
       type := "refresh", iat := now, exp := now + REFRESH_TOKEN_EXPIRES }⟩
  (token, sha256hex (strBytes token.toStr))

/-- jwt_utils.verify_access_token.  PyJWT raises ExpiredSignatureError when
exp <= now (leeway 0), which the source maps to TokenError
"Access token has expired"; the type check runs after decoding. -/
def verify_access_token (now : Int) (t : EncodedJwt) : Except String JwtPayload :=
  if t.payload.exp ≤ now then Except.error "Access token has expired"
  else if t.payload.type ≠ "access" then Except.error "Invalid token type"
  else Except.ok t.payload

/-- jwt_utils.verify_refresh_token, same structure for kind refresh. -/
def verify_refresh_token (now : Int) (t : EncodedJwt) : Except String JwtPayload :=
  if t.payload.exp ≤ now then Except.error "Refresh token has expired"
  else if t.payload.type ≠ "refresh" then Except.error "Invalid token type"
  else Except.ok t.payload

/-! ## RevocationStore (db.py refresh_tokens table)

The table schema (migrate_db.py) declares token_hash TEXT UNIQUE NOT NULL, so
an insert with an already-present hash raises, which the embedding returns as
none. -/

/-- One row of the refresh_tokens table. -/
structure RefreshRecord where
  user_id : Nat
  token_hash : String
  expires_at : Int
  revoked : Bool
  device_info : Option String
deriving DecidableEq, Repr

/-- db.create_refresh_token: insert a new unrevoked row; fails (raises) on the
UNIQUE token_hash constraint. -/
def create_refresh_token (store : List RefreshRecord) (user_id : Nat)
    (token_hash : String) (expires_at : Int) : Option (List RefreshRecord) :=
  if store.any (fun r => r.token_hash == token_hash) then none
  else some (store ++ [⟨user_id, token_hash, expires_at, false, none⟩])

/-- db.get_refresh_token: select rows matching the hash with revoked = false;
.single() succeeds only on exactly one row, any error becomes None.  Note:
expires_at is NOT part of the filter. -/
def get_refresh_token (store : List RefreshRecord) (token_hash : String) :
    Option RefreshRecord :=
  match store.filter (fun r => r.token_hash == token_hash && !r.revoked) with
  | [r] => some r
  | _ => none

/-- db.revoke_refresh_token: set revoked = true on every row with this hash. -/
def revoke_refresh_token (store : List RefreshRecord) (token_hash : String) :
    List RefreshRecord :=
  store.map (fun r => if r.token_hash == token_hash then { r with revoked := true } else r)

/-- db.revoke_all_user_tokens: set revoked = true on every row of the user. -/
def revoke_all_user_tokens (store : List RefreshRecord) (user_id : Nat) :
    List RefreshRecord :=
  store.map (fun r => if r.user_id == user_id then { r with revoked := true } else r)

/-- db.cleanup_expired_tokens: two sequential deletes, first all rows with
expires_at < now, then all rows with revoked = true.  No retention margin. -/
def cleanup_expired_tokens (now : Int) (store : List RefreshRecord) :
    List RefreshRecord :=
  (store.filter (fun r => !(r.expires_at < now : Bool))).filter (fun r => !r.revoked)

/-! ## Account store (db.py users_insight table) -/

/-- One row of the users_insight table (the columns the subsystem touches). -/
structure UserRecord where
  id : Nat
  email : String
  password_hash : String
  full_name : Option String
  is_admin : Bool
  google_id : Option String
  last_login_at : Option Int
deriving DecidableEq, Repr

/-- db.get_user_by_id: select .eq(id) .single(); errors become the caller's
exception path, embedded as none. -/
def get_user_by_id (users : List UserRecord) (uid : Nat) : Option UserRecord :=
  match users.filter (fun u => u.id == uid) with
  | [u] => some u
  | _ => none

/-- db.get_user_by_email: select .eq(email) .single(). -/
def get_user_by_email (users : List UserRecord) (email : String) : Option UserRecord :=
  match users.filter (fun u => u.email == email) with
  | [u] => some u
  | _ => none

/-- db.get_user_by_google_id: select .eq(google_id) .single(), None on error. -/
def get_user_by_google_id (users : List UserRecord) (gid : String) : Option UserRecord :=
  match users.filter (fun u => u.google_id == some gid) with
  | [u] => some u
  | _ => none

/-- Serial id for a fresh users_insight row (BIGSERIAL primary key). -/
def next_user_id (users : List UserRecord) : Nat :=
  (users.map (fun u => u.id)).foldr max 0 + 1

/-- db.create_user: insert a row; email is unique in the table, so inserting a
duplicate email raises (none).  Returns the new row's id on success. -/
def create_user (users : List UserRecord) (email password_hash : String)
    (full_name : Option String) : Option (List UserRecord × Nat) :=
  if users.any (fun u => u.email == email) then none
  else
    let uid := next_user_id users
    some (users ++ [⟨uid, email, password_hash, full_name, false, none, none⟩], uid)

/-- db.update_user_oauth: set google_id (and provider/picture metadata, not
modelled) on the row with this id. -/
def update_user_oauth (users : List UserRecord) (uid : Nat) (gid : String) :
    List UserRecord :=
  users.map (fun u => if u.id == uid then { u with google_id := some gid } else u)

/-- routes.update_last_login: set last_login_at on the row with this id. -/
def update_last_login (users : List UserRecord) (uid : Nat) (now : Int) :
    List UserRecord :=
  users.map (fun u => if u.id == uid then { u with last_login_at := some now } else u)

/-! ## QuotaTracker (db.py user_ai_usage table and the quota logic of
app.ai_chat) -/

/-- One row of the user_ai_usage table. -/
structure UsageRecord where
  id : Nat
  user_id : Nat
  post_id : Nat
  usage_count : Nat
  last_used_at : Int
deriving DecidableEq, Repr

/-- Serial id for a fresh user_ai_usage row. -/
def next_usage_id (store : List UsageRecord) : Nat :=
  (store.map (fun r => r.id)).foldr max 0 + 1

/-- db.get_user_ai_usage: read the (user, post) row; if more than 24 hours
(86400 s) have passed since last_used_at, write a reset (count 0, stamped now)
and report 0; otherwise report the stored count.  .single() errors (no row, or
more than one) are swallowed and report 0 without writing. -/
def get_user_ai_usage (now : Int) (store : List UsageRecord) (uid pid : Nat) :
    Nat × List UsageRecord :=
  match store.filter (fun r => r.user_id == uid && r.post_id == pid) with
  | [r] =>
    if now - r.last_used_at > 86400 then
      (0, store.map (fun x =>
        if x.id == r.id then { x with usage_count := 0, last_used_at := now } else x))
    else (r.usage_count, store)
  | _ => (0, store)

/-- db.increment_user_ai_usage: read the row, then write count+1 stamped now;
when the read fails (no row), insert a fresh row with count 1.  There is no
window check here: the count is incremented and the stamp slid forward even if
the stored stamp is stale. -/
def increment_user_ai_usage (now : Int) (store : List UsageRecord) (uid pid : Nat) :
    List UsageRecord :=
  match store.filter (fun r => r.user_id == uid && r.post_id == pid) with
  | [r] =>
    store.map (fun x =>
      if x.id == r.id then { x with usage_count := r.usage_count + 1, last_used_at := now } else x)
  | _ => store ++ [⟨next_usage_id store, uid, pid, 1, now⟩]

/-- Outcome of a POST /api/ai/chat call.  The 429 limit response carries only
an error and a message field — no remaining value; the 200 response carries
the answer and the remaining count. -/
inductive ChatResult where
  | limitExhausted
  | answered (remaining : Int)
  | failed
deriving DecidableEq, Repr

/-- The remaining value reported in a chat response body, if any. -/
def ChatResult.remainingReported : ChatResult → Option Int
  | .answered r => some r
  | _ => none

/-- The quota logic of app.ai_chat (request validation, post lookup and the
Groq prompt assembly elided; `llm_ok` is whether the model call inside the try
block succeeds).  Non-admins are checked against the limit 3 before the call
and the usage row is incremented after a successful call; admins skip the
check but are still incremented, reporting 999. -/
def ai_chat (now : Int) (store : List UsageRecord) (uid pid : Nat)
    (is_admin : Bool) (llm_ok : Bool) : ChatResult × List UsageRecord :=
  if is_admin then
    if llm_ok then (.answered 999, increment_user_ai_usage now store uid pid)
    else (.failed, store)
  else
    let res := get_user_ai_usage now store uid pid
    let current_usage := res.1
    let store1 := res.2
    if current_usage ≥ 3 then (.limitExhausted, store1)
    else
      let remaining_quota : Int := 3 - (current_usage : Int)
      if llm_ok then
        (.answered (remaining_quota - 1), increment_user_ai_usage now store1 uid pid)
      else (.failed, store1)

/-! ## SessionService (auth/routes.py) -/

/-- The Flask session keys the auth code touches. -/
structure SessionState where
  user_id : Option Nat
  user_name : Option String
  is_admin : Option Bool
  permanent : Bool
deriving DecidableEq, Repr

/-- session.clear(). -/
def emptySession : SessionState := ⟨none, none, none, false⟩

/-- The server-side state the auth routes read and write. -/
structure AuthState where
  refresh_tokens : List RefreshRecord
  users : List UserRecord
  session : SessionState
deriving DecidableEq, Repr

/-- The session assignment performed at login / refresh / status sync:
user_id, user_name (the row's full_name), is_admin, permanent = True. -/
def syncedSession (user : UserRecord) : SessionState :=
  ⟨some user.id, user.full_name, some user.is_admin, true⟩

/-- routes.create_auth_response for a given user row: generate the pair,
store the refresh hash with a 30-day expiry, update last_login, sync the
session.  If the insert raises (UNIQUE hash), the route's exception handler
fires before the remaining writes: none is returned and the state is the
caller's unchanged state. -/
def create_auth_response (now : Int) (st : AuthState) (user : UserRecord) :
    Option (EncodedJwt × EncodedJwt × AuthState) :=
  let access := generate_access_token now user.id user.email user.is_admin
  let pair := generate_refresh_token now user.id
  match create_refresh_token st.refresh_tokens user.id pair.2 (now + 2592000) with
  | none => none
  | some store1 =>
    some (access, pair.1,
      { refresh_tokens := store1,
        users := update_last_login st.users user.id now,
        session := syncedSession user })

/-- Result of POST /api/auth/refresh: 200 with a fresh cookie pair, or an
error status with the JSON error code. -/
inductive RefreshResult where
  | ok (access refreshTok : EncodedJwt)
  | err (status : Nat) (code : String)
deriving DecidableEq, Repr

def RefreshResult.isSuccess : RefreshResult → Bool
  | .ok _ _ => true
  | .err _ _ => false

/-- The read/validate half of routes.refresh, up to the last statement before
the first database write: verify the JWT, hash the raw cookie, find the active
row, load the user. -/
inductive RefreshReadOutcome where
  | fail (res : RefreshResult) (clearSession : Bool)
  | proceed (token_hash : String) (user : UserRecord)
deriving DecidableEq, Repr

def refresh_read (now : Int) (st : AuthState) (cookie : Option EncodedJwt) :
    RefreshReadOutcome :=
  match cookie with
  | none => .fail (.err 401 "NO_REFRESH_TOKEN") false
  | some tok =>
    match verify_refresh_token now tok with
    | .error _ => .fail (.err 401 "INVALID_REFRESH_TOKEN") true
    | .ok payload =>
      let token_hash := hash_token tok.toStr
      match get_refresh_token st.refresh_tokens token_hash with
      | none => .fail (.err 401 "REVOKED_TOKEN") false
      | some db_token =>
        if db_token.revoked then .fail (.err 401 "REVOKED_TOKEN") false
        else
          match get_user_by_id st.users payload.user_id with
          | none => .fail (.err 500 "REFRESH_ERROR") false
          | some user => .proceed token_hash user

/-- The write half of routes.refresh: generate the new pair, revoke the old
hash, insert the new one (30-day expiry), sync the session.  If the insert
raises (UNIQUE hash), the generic handler returns 500 after the revoke has
already been applied — the rotation is left half done. -/
def refresh_write (now : Int) (st : AuthState) (token_hash : String)
    (user : UserRecord) : RefreshResult × AuthState :=
  let access := generate_access_token now user.id user.email user.is_admin
  let pair := generate_refresh_token now user.id
  let store1 := revoke_refresh_token st.refresh_tokens token_hash
  match create_refresh_token store1 user.id pair.2 (now + 2592000) with
  | none => (.err 500 "REFRESH_ERROR", { st with refresh_tokens := store1 })
  | some store2 =>
    (.ok access pair.1,
      { st with refresh_tokens := store2, session := syncedSession user })

/-- routes.refresh: the read half followed by the write half, sequentially on
the same state.  The TokenError handler clears the session. -/
def refresh (now : Int) (st : AuthState) (cookie : Option EncodedJwt) :
    RefreshResult × AuthState :=
  match refresh_read now st cookie with
  | .fail res clear => (res, if clear then { st with session := emptySession } else st)
  | .proceed token_hash user => refresh_write now st token_hash user

/-- routes.logout: hash the presented refresh cookie (if any) and revoke it;
cookie clearing is transport-side, the session dict is not touched. -/
def logout (st : AuthState) (cookie : Option EncodedJwt) : AuthState :=
  match cookie with
  | none => st
  | some tok =>
    { st with refresh_tokens := revoke_refresh_token st.refresh_tokens (hash_token tok.toStr) }

/-- Response of GET /api/auth/status. -/
inductive StatusResult where
  | authenticated (user_id : Nat) (email : Option String) (is_admin : Bool)
  | needsRefresh (reason : String)
  | unauthenticated (reason : String)
  | serverError
deriving DecidableEq, Repr

/-- routes.auth_status.  The valid-token path syncs the session from the user
row when the session lacks a user_id (get_user_by_id raising on a missing row
escapes the TokenError handler: serverError); the invalid-token path with no
refresh cookie clears the session. -/
def auth_status (now : Int) (st : AuthState)
    (access refreshCookie : Option EncodedJwt) : StatusResult × AuthState :=
  match access with
  | none =>
    match refreshCookie with
    | some _ => (.needsRefresh "access_token_missing", st)
    | none => (.unauthenticated "no_tokens", st)
  | some tok =>
    match verify_access_token now tok with
    | .ok payload =>
      if st.session.user_id.isNone then
        match get_user_by_id st.users payload.user_id with
        | some user =>
          (.authenticated payload.user_id payload.email (payload.is_admin.getD false),
            { st with session := syncedSession user })
        | none => (.serverError, st)
      else
        (.authenticated payload.user_id payload.email (payload.is_admin.getD false), st)
    | .error _ =>
      match refreshCookie with
      | some _ => (.needsRefresh "access_token_expired", st)
      | none => (.unauthenticated "token_invalid", { st with session := emptySession })

/-! ## IdentityLinker (the find-or-create block of routes.google_callback) -/

/-- The find-or-create resolution of the Google OAuth callback
(routes.google_callback, after profile validation).  `interloper` models a row
committed by a concurrent request between the by-email lookup and the create
(the race the duplicate-email fallback exists for); the sequential execution
passes none.  `rand_pw` is the hash of the random unusable password
(generate_password_hash(os.urandom(32).hex())). -/
def google_resolve (users : List UserRecord) (gid email : String)
    (full_name : Option String) (rand_pw : String) (interloper : Option UserRecord) :
    Option UserRecord × List UserRecord :=
  match get_user_by_google_id users gid with
  | some u => (some u, users)
  | none =>
    match get_user_by_email users email with
    | some u => (some u, update_user_oauth users u.id gid)
    | none =>
      let users1 := users ++ (match interloper with | some v => [v] | none => [])
      match create_user users1 email rand_pw full_name with
      | some res =>
        let users2 := update_user_oauth res.1 res.2 gid
        (get_user_by_id users2 res.2, users2)
      | none =>
        match get_user_by_email users1 email with
        | some u => (some u, update_user_oauth users1 u.id gid)
        | none => (none, users1)

/-! ## Sequential operation traces (for the single-use rotation claim) -/

/-- One request-level operation on the auth state. -/
inductive AuthStep where
  | loginStep (now : Int) (uid : Nat)
  | refreshStep (now : Int) (cookie : Option EncodedJwt)
  | logoutStep (cookie : Option EncodedJwt)
  | statusStep (now : Int) (access refreshCookie : Option EncodedJwt)
  | cleanupStep (now : Int)

/-- State effect of one operation.  loginStep is a login that authenticated as
the stored user `uid` (a failed create_auth_response leaves the state as it
was, since the insert is its first write). -/
def applyStep (st : AuthState) : AuthStep → AuthState
  | .loginStep now uid =>
    match get_user_by_id st.users uid with
    | none => st
    | some user =>
      match create_auth_response now st user with
      | none => st
      | some res => res.2.2
  | .refreshStep now cookie => (refresh now st cookie).2
  | .logoutStep cookie => logout st cookie
  | .statusStep now access refreshCookie => (auth_status now st access refreshCookie).2
  | .cleanupStep now => { st with refresh_tokens := cleanup_expired_tokens now st.refresh_tokens }

def applySteps (st : AuthState) (steps : List AuthStep) : AuthState :=
  steps.foldl applyStep st

/-- No row with this hash is active: every stored row carrying the hash is
revoked.  This is exactly the situation in which get_refresh_token comes back
empty for the hash. -/
def inactiveHash (H : String) (store : List RefreshRecord) : Prop :=
  ∀ rec ∈ store, rec.token_hash = H → rec.revoked = true

instance (H : String) (store : List RefreshRecord) : Decidable (inactiveHash H store) :=
  inferInstanceAs (Decidable (∀ rec ∈ store, rec.token_hash = H → rec.revoked = true))

/-- A step never records a fresh refresh credential whose digest is H.  Only
login and a refresh presenting some cookie insert rows; the inserted row's
hash is the digest of the token generated at that step's clock for that
step's user.  (Justified by collision resistance of SHA-256: a freshly
generated credential does not collide with the digest of an old one.) -/
def stepAvoids (H : String) : AuthStep → Prop
  | .loginStep now uid => (generate_refresh_token now uid).2 ≠ H
  | .refreshStep now cookie =>
    match cookie with
    | none => True
    | some tok => (generate_refresh_token now tok.payload.user_id).2 ≠ H
  | .logoutStep _ => True
  | .statusStep _ _ _ => True
  | .cleanupStep _ => True

/-! ## Interleaved concurrent refreshes (for the rotation atomicity claim)

Each Supabase call is individually atomic, but routes.refresh issues its reads
and its two writes as separate statements with no transaction around them, so
the calls of two concurrent requests can interleave.  The schedule below runs
both requests' read halves against the same starting state, then both write
halves in turn — the interleaving a transaction or compare-and-swap would
exclude. -/
def refresh_race (nowA nowB : Int) (st : AuthState)
    (cookieA cookieB : Option EncodedJwt) :
    RefreshResult × RefreshResult × AuthState :=
  match refresh_read nowA st cookieA, refresh_read nowB st cookieB with
  | RefreshReadOutcome.proceed hA uA, RefreshReadOutcome.proceed hB uB =>
    let resA := refresh_write nowA st hA uA
    let resB := refresh_write nowB resA.2 hB uB
    (resA.1, resB.1, resB.2)
  | RefreshReadOutcome.proceed hA uA, RefreshReadOutcome.fail resB clearB =>
    let resA := refresh_write nowA st hA uA
    (resA.1, resB, if clearB then { resA.2 with session := emptySession } else resA.2)
  | RefreshReadOutcome.fail resA clearA, RefreshReadOutcome.proceed hB uB =>
    let stA := if clearA then { st with session := emptySession } else st
    let resB := refresh_write nowB stA hB uB
    (resA, resB.1, resB.2)
  | RefreshReadOutcome.fail resA clearA, RefreshReadOutcome.fail resB clearB =>
    let stA := if clearA then { st with session := emptySession } else st
    (resA, resB, if clearB then { stA with session := emptySession } else stA)

/-! ## Shared helper lemmas -/

lemma get_user_by_id_spec {users : List UserRecord} {uid : Nat} {u : UserRecord}
    (h : get_user_by_id users uid = some u) : u ∈ users ∧ u.id = uid := by
  unfold get_user_by_id at h
  cases hf : users.filter (fun x => x.id == uid) with
  | nil => rw [hf] at h; exact absurd h (by simp)
  | cons a tl =>
    cases tl with
    | nil =>
      rw [hf] at h
      simp only [Option.some.injEq] at h
      have ha : a ∈ users.filter (fun x => x.id == uid) := by
        rw [hf]; exact List.mem_singleton_self a
      have h2 := List.mem_filter.1 ha
      rw [← h]
      exact ⟨h2.1, by simpa using h2.2⟩
    | cons b tl2 => rw [hf] at h; exact absurd h (by simp)

lemma verify_refresh_token_ok {now : Int} {tok : EncodedJwt} {p : JwtPayload}
    (h : verify_refresh_token now tok = Except.ok p) : p = tok.payload := by
  unfold verify_refresh_token at h
  split at h
  · exact absurd h (by simp)
  · split at h
    · exact absurd h (by simp)
    · simpa using h.symm

/-! ## C3: access-token issue/verify round trip -/

/-- C3: for every user_id, email and role flag, an access token produced by
generate_access_token verifies successfully at any time strictly before its
ttl (900 s by default) elapses, yielding the issued user_id and is_admin, and
verification at or after expiry fails with TokenError
"Access token has expired". -/
theorem C3_access_token_round_trip (now t : Int) (uid : Nat) (email : String)
    (adm : Bool) :
    (t < now + ACCESS_TOKEN_EXPIRES →
      verify_access_token t (generate_access_token now uid email adm) =
        Except.ok { user_id := uid, email := some email, is_admin := some adm,
                    type := "access", iat := now, exp := now + ACCESS_TOKEN_EXPIRES }) ∧
    (now + ACCESS_TOKEN_EXPIRES ≤ t →
      verify_access_token t (generate_access_token now uid email adm) =
        Except.error "Access token has expired") := by
  constructor
  · intro h
    unfold verify_access_token generate_access_token
    rw [if_neg (by simp only []; omega)]
    simp
  · intro h
    unfold verify_access_token generate_access_token
    rw [if_pos (by simp only []; omega)]

/-- Witness: the spec scenario — subject 42, verify at issuance succeeds with
the same subject and role, verify 901 s later fails EXPIRED. -/
theorem C3_access_token_round_trip_witness :
    verify_access_token 0 (generate_access_token 0 42 "user@example.com" false) =
      Except.ok { user_id := 42, email := some "user@example.com",
                  is_admin := some false, type := "access", iat := 0, exp := 900 } ∧
    verify_access_token 901 (generate_access_token 0 42 "user@example.com" false) =
      Except.error "Access token has expired" := by
  constructor
  · have h := (C3_access_token_round_trip 0 0 42 "user@example.com" false).1 (by decide)
    simpa using h
  · exact (C3_access_token_round_trip 0 901 42 "user@example.com" false).2 (by decide)

/-! ## C4: what findActive (get_refresh_token) actually filters on -/

/-- C4 counterexample: a stored record whose expires_at (5) is before now (10)
but which is unrevoked IS returned by get_refresh_token — the lookup takes no
clock at all, refuting the claim that expiresAt > now is required. -/
theorem C4_counterexample :
    get_refresh_token [⟨1, "h", 5, false, none⟩] "h" = some ⟨1, "h", 5, false, none⟩ ∧
    (5 : Int) < 10 := by decide

/-- C4 amended: get_refresh_token returns a record exactly when the store's
rows matching the hash with revoked = false are exactly that one row; the
expiry column plays no part in the lookup (expiry of the credential is
enforced separately by the JWT exp check in verify_refresh_token). -/
theorem C4_findActive_filters_revoked_only (store : List RefreshRecord)
    (h : String) (r : RefreshRecord) :
    get_refresh_token store h = some r ↔
      store.filter (fun x => x.token_hash == h && !x.revoked) = [r] := by
  unfold get_refresh_token
  cases hf : store.filter (fun x => x.token_hash == h && !x.revoked) with
  | nil => simp
  | cons a tl =>
    cases tl with
    | nil => simp
    | cons b tl2 => simp

/-! ## C9: what garbage collection actually deletes -/

/-- C9 counterexample: a revoked record whose expires_at (100) is still in the
future of now (50) — hence inside any retention margin — is deleted by
cleanup_expired_tokens, refuting retention regardless of the revoked flag. -/
theorem C9_counterexample :
    cleanup_expired_tokens 50 [⟨1, "h", 100, true, none⟩] = [] ∧
    ¬ (100 : Int) < 50 := by decide

/-- C9 amended: cleanup_expired_tokens retains exactly the rows that are
neither expired nor revoked: a record survives iff expires_at ≥ now and
revoked = false.  There is no retention margin, and revoked rows are deleted
even when unexpired. -/
theorem C9_cleanup_deletes_expired_or_revoked (now : Int)
    (store : List RefreshRecord) (rec : RefreshRecord) :
    rec ∈ cleanup_expired_tokens now store ↔
      rec ∈ store ∧ ¬ rec.expires_at < now ∧ rec.revoked = false := by
  unfold cleanup_expired_tokens
  simp only [List.mem_filter, decide_eq_true_eq, Bool.not_eq_true', Bool.not_eq_true]
  constructor
  · rintro ⟨⟨hmem, hexp⟩, hrev⟩
    refine ⟨hmem, ?_, hrev⟩
    simpa using hexp
  · rintro ⟨hmem, hexp, hrev⟩
    exact ⟨⟨hmem, by simpa using hexp⟩, hrev⟩

/-! ## Quota lemmas and C5 / C6 -/

lemma get_usage_empty (now : Int) (uid pid : Nat) :
    get_user_ai_usage now [] uid pid = (0, []) := rfl

lemma get_usage_single (now : Int) (i uid pid c : Nat) (t : Int) :
    get_user_ai_usage now [⟨i, uid, pid, c, t⟩] uid pid =
      if now - t > 86400 then (0, [⟨i, uid, pid, 0, now⟩]) else (c, [⟨i, uid, pid, c, t⟩]) := by
  unfold get_user_ai_usage
  simp [List.filter]

lemma increment_usage_single (now : Int) (i uid pid c : Nat) (t : Int) :
    increment_user_ai_usage now [⟨i, uid, pid, c, t⟩] uid pid = [⟨i, uid, pid, c + 1, now⟩] := by
  unfold increment_user_ai_usage
  simp [List.filter]

lemma increment_usage_empty (now : Int) (uid pid : Nat) :
    increment_user_ai_usage now [] uid pid = [⟨1, uid, pid, 1, now⟩] := rfl

/-- C5 counterexample: with no prior usage, the fourth same-window call is
denied (429 Limit exhausted), but its response body carries no remaining
field at all — the claim that a denied call "reports remaining = 0" does not
hold of the code, which reports remaining only on allowed calls. -/
theorem C5_counterexample :
    (ai_chat 0 (ai_chat 0 (ai_chat 0 (ai_chat 0 [] 1 1 false true).2
        1 1 false true).2 1 1 false true).2 1 1 false true).1 = ChatResult.limitExhausted ∧
    (ai_chat 0 (ai_chat 0 (ai_chat 0 (ai_chat 0 [] 1 1 false true).2
        1 1 false true).2 1 1 false true).2 1 1 false true).1.remainingReported = none := by
  decide

/-- C5 amended: for any (subject, post) pair starting with no usage, four
sequential calls within one window yield allowed = [true, true, true, false];
a denied call does not increment the count and returns a 429 carrying no
remaining value; an allowed call increments and reports remaining =
limit − count (2, 1, 0); after the window elapses the next call is allowed
with remaining = limit − 1 = 2. -/
theorem C5_quota_check_and_increment (uid pid : Nat) (t1 t2 t3 t4 t5 : Int)
    (h12 : t1 ≤ t2) (h23 : t2 ≤ t3) (h34 : t3 ≤ t4)
    (hwin : t4 - t1 ≤ 86400) (hgap : t5 - t4 > 86400) :
    ai_chat t1 [] uid pid false true = (.answered 2, [⟨1, uid, pid, 1, t1⟩]) ∧
    ai_chat t2 [⟨1, uid, pid, 1, t1⟩] uid pid false true = (.answered 1, [⟨1, uid, pid, 2, t2⟩]) ∧
    ai_chat t3 [⟨1, uid, pid, 2, t2⟩] uid pid false true = (.answered 0, [⟨1, uid, pid, 3, t3⟩]) ∧
    ai_chat t4 [⟨1, uid, pid, 3, t3⟩] uid pid false true = (.limitExhausted, [⟨1, uid, pid, 3, t3⟩]) ∧
    (ChatResult.limitExhausted).remainingReported = none ∧
    ai_chat t5 [⟨1, uid, pid, 3, t3⟩] uid pid false true = (.answered 2, [⟨1, uid, pid, 1, t5⟩]) := by
  refine ⟨?_, ?_, ?_, ?_, rfl, ?_⟩
  · unfold ai_chat
    rw [get_usage_empty]
    norm_num
    rw [increment_usage_empty]
  · unfold ai_chat
    rw [get_usage_single, if_neg (show ¬ t2 - t1 > 86400 by omega)]
    norm_num
    rw [increment_usage_single]
  · unfold ai_chat
    rw [get_usage_single, if_neg (show ¬ t3 - t2 > 86400 by omega)]
    norm_num
    rw [increment_usage_single]
  · unfold ai_chat
    rw [get_usage_single, if_neg (show ¬ t4 - t3 > 86400 by omega)]
    norm_num
  · unfold ai_chat
    rw [get_usage_single, if_pos (show t5 - t3 > 86400 by omega)]
    norm_num
    rw [increment_usage_single]

/-- Witness for C5: the amended property at concrete inputs — calls at times
0,0,0,0 then 86401 for subject 3 on post 7. -/
theorem C5_quota_check_and_increment_witness :
    ai_chat 0 [] 3 7 false true = (.answered 2, [⟨1, 3, 7, 1, 0⟩]) ∧
    ai_chat 0 [⟨1, 3, 7, 1, 0⟩] 3 7 false true = (.answered 1, [⟨1, 3, 7, 2, 0⟩]) ∧
    ai_chat 0 [⟨1, 3, 7, 2, 0⟩] 3 7 false true = (.answered 0, [⟨1, 3, 7, 3, 0⟩]) ∧
    ai_chat 0 [⟨1, 3, 7, 3, 0⟩] 3 7 false true = (.limitExhausted, [⟨1, 3, 7, 3, 0⟩]) ∧
    (ChatResult.limitExhausted).remainingReported = none ∧
    ai_chat 86401 [⟨1, 3, 7, 3, 0⟩] 3 7 false true = (.answered 2, [⟨1, 3, 7, 1, 86401⟩]) :=
  C5_quota_check_and_increment 3 7 0 0 0 0 86401
    (by decide) (by decide) (by decide) (by decide) (by decide)

/-- C6 counterexample: uses counted at t = 0 and t = 82800 (23 h), then a read
at t = 90000.  The first counted use of the window was at 0 and
90000 > 0 + 86400, so under the claimed first-use anchoring the record should
have been reset to 0 before the read; the code instead measures from the most
recent use (82800) and reports the unreset count 2. -/
theorem C6_counterexample :
    (get_user_ai_usage 90000
      (increment_user_ai_usage 82800 (increment_user_ai_usage 0 [] 1 1) 1 1) 1 1).1 = 2 ∧
    (90000 : Int) > 0 + 86400 := by decide

/-- C6 amended: the window is anchored at the most recent counted use, not the
first.  An increment at time t always stores count + 1 stamped t — sliding
the window forward and never resetting, however stale the previous stamp t0 —
and a subsequent read at time now resets (reports 0) iff now − t > 86400,
a condition depending only on the last use t, not on the window start t0. -/
theorem C6_window_anchored_at_last_use (uid pid i c : Nat) (t0 t now : Int) :
    increment_user_ai_usage t [⟨i, uid, pid, c, t0⟩] uid pid = [⟨i, uid, pid, c + 1, t⟩] ∧
    (get_user_ai_usage now (increment_user_ai_usage t [⟨i, uid, pid, c, t0⟩] uid pid) uid pid).1 =
      if now - t > 86400 then 0 else c + 1 := by
  refine ⟨increment_usage_single t i uid pid c t0, ?_⟩
  rw [increment_usage_single, get_usage_single]
  split <;> rfl

/-! ## C8: what /api/auth/status mutates -/

lemma auth_status_preserves_stores (now : Int) (st : AuthState)
    (access refreshCookie : Option EncodedJwt) :
    (auth_status now st access refreshCookie).2.refresh_tokens = st.refresh_tokens ∧
    (auth_status now st access refreshCookie).2.users = st.users := by
  unfold auth_status
  cases access with
  | none => cases refreshCookie <;> exact ⟨rfl, rfl⟩
  | some tok =>
    cases hv : verify_access_token now tok with
    | ok p =>
      simp only [hv]
      by_cases hs : st.session.user_id.isNone
      · rw [if_pos hs]
        cases hu : get_user_by_id st.users p.user_id <;> exact ⟨rfl, rfl⟩
      · rw [if_neg hs]
        exact ⟨rfl, rfl⟩
    | error e =>
      simp only [hv]
      cases refreshCookie <;> exact ⟨rfl, rfl⟩

/-- C8 counterexample: with a valid access token for stored user 1 and an
empty session, /api/auth/status writes the user into the session — server-side
state differs before and after the call, refuting "without mutating any
state". -/
theorem C8_counterexample :
    (auth_status 0 ⟨[], [⟨1, "e", "p", none, false, none, none⟩], emptySession⟩
        (some (generate_access_token 0 1 "e" false)) none).2.session ≠ emptySession ∧
    (auth_status 0 ⟨[], [⟨1, "e", "p", none, false, none, none⟩], emptySession⟩
        (some (generate_access_token 0 1 "e" false)) none).1 =
      StatusResult.authenticated 1 (some "e") false := by decide

/-- C8 amended: Status never mutates the stored records (the refresh-token
store and the user table are identical before and after the call), but the
session is not left untouched in general: it is either unchanged, cleared
(invalid access token and no refresh cookie), or synced from a stored user row
(valid access token with a session lacking user_id). -/
theorem C8_status_mutates_session_only (now : Int) (st : AuthState)
    (access refreshCookie : Option EncodedJwt) :
    ((auth_status now st access refreshCookie).2.refresh_tokens = st.refresh_tokens ∧
     (auth_status now st access refreshCookie).2.users = st.users) ∧
    ((auth_status now st access refreshCookie).2.session = st.session ∨
     (auth_status now st access refreshCookie).2.session = emptySession ∨
     ∃ user ∈ st.users, (auth_status now st access refreshCookie).2.session = syncedSession user) := by
  refine ⟨auth_status_preserves_stores now st access refreshCookie, ?_⟩
  unfold auth_status
  cases access with
  | none => cases refreshCookie <;> exact Or.inl rfl
  | some tok =>
    cases hv : verify_access_token now tok with
    | ok p =>
      simp only [hv]
      by_cases hs : st.session.user_id.isNone
      · rw [if_pos hs]
        cases hu : get_user_by_id st.users p.user_id with
        | none => exact Or.inl rfl
        | some user => exact Or.inr (Or.inr ⟨user, (get_user_by_id_spec hu).1, rfl⟩)
      · rw [if_neg hs]
        exact Or.inl rfl
    | error e =>
      simp only [hv]
      cases refreshCookie with
      | none => exact Or.inr (Or.inl rfl)
      | some _ => exact Or.inl rfl

/-! ## C10: digest consistency between issuance, lookup and revocation -/

def demoUser : UserRecord := ⟨1, "a@b.c", "pw", none, false, none, none⟩

def demoState : AuthState := ⟨[], [demoUser], emptySession⟩

/-- C10: hash_token is a deterministic function (equal inputs give equal hex
digests); the (token, token_hash) pair returned by generate_refresh_token
satisfies token_hash = hash_token(token); and the digest recorded at login is
the digest of the raw refresh credential handed to the client, which is
exactly what Logout (and Refresh) recompute from the presented cookie — so
lookup and revocation address the very record stored at login. -/
theorem C10_digest_consistency (s t : String) (hst : s = t) (now : Int) (uid : Nat)
    (st : AuthState) (user : UserRecord) (acc ref : EncodedJwt) (st1 : AuthState)
    (hlogin : create_auth_response now st user = some (acc, ref, st1)) :
    hash_token s = hash_token t ∧
    (generate_refresh_token now uid).2 = hash_token (generate_refresh_token now uid).1.toStr ∧
    (∃ rec ∈ st1.refresh_tokens, rec.token_hash = hash_token ref.toStr) ∧
    (∀ st2 : AuthState, logout st2 (some ref) =
      { st2 with refresh_tokens := revoke_refresh_token st2.refresh_tokens (hash_token ref.toStr) }) := by
  refine ⟨by rw [hst], rfl, ?_, fun st2 => rfl⟩
  unfold create_auth_response at hlogin
  dsimp only at hlogin
  cases hc : create_refresh_token st.refresh_tokens user.id
      (generate_refresh_token now user.id).2 (now + 2592000) with
  | none => rw [hc] at hlogin; exact absurd hlogin (by simp)
  | some s1 =>
    rw [hc] at hlogin
    simp only [Option.some.injEq, Prod.mk.injEq] at hlogin
    obtain ⟨-, href, hst1⟩ := hlogin
    unfold create_refresh_token at hc
    split at hc
    · exact absurd hc (by simp)
    · simp only [Option.some.injEq] at hc
      refine ⟨⟨user.id, (generate_refresh_token now user.id).2, now + 2592000, false, none⟩, ?_, ?_⟩
      · rw [← hst1]
        simp only []
        rw [← hc]
        exact List.mem_append_right _ (List.mem_singleton_self _)
      · rw [← href]
        rfl

/-- Witness for C10 at a concrete login: user 1 logging in at time 0 into an
empty store. -/
theorem C10_digest_consistency_witness :
    hash_token "tok" = hash_token "tok" ∧
    (generate_refresh_token 0 1).2 = hash_token (generate_refresh_token 0 1).1.toStr ∧
    (∃ rec ∈ [RefreshRecord.mk 1 (generate_refresh_token 0 1).2 2592000 false none],
      rec.token_hash = hash_token (generate_refresh_token 0 1).1.toStr) ∧
    (∀ st2 : AuthState, logout st2 (some (generate_refresh_token 0 1).1) =
      { st2 with refresh_tokens :=
          revoke_refresh_token st2.refresh_tokens (hash_token (generate_refresh_token 0 1).1.toStr) }) :=
  C10_digest_consistency "tok" "tok" rfl 0 1 demoState demoUser
    (generate_access_token 0 1 "a@b.c" false) (generate_refresh_token 0 1).1
    ⟨[⟨1, (generate_refresh_token 0 1).2, 2592000, false, none⟩],
     update_last_login [demoUser] 1 0, syncedSession demoUser⟩ rfl

/-! ## C2: rotation is not atomic — both concurrent refreshes can succeed -/

def raceUser : UserRecord := ⟨1, "e", "p", none, false, none, none⟩

/-- The refresh credential issued to user 1 at time 0. -/
def raceToken : EncodedJwt := (generate_refresh_token 0 1).1

/-- State after that login: one active record holding the credential's digest. -/
def raceState : AuthState :=
  ⟨[⟨1, (generate_refresh_token 0 1).2, 2592000, false, none⟩], [raceUser], emptySession⟩

/-- C2 refutation: two concurrent Refresh calls present the same raw refresh
credential; under the read-read-write-write interleaving both calls pass the
findActive check against the unrevoked record and both then revoke-and-insert
— both return success, so rotation is not exactly-once.  Sequentially the
same two calls behave as the claim says (second fails REVOKED_TOKEN), showing
the interleaving, not the inputs, is what breaks the property: the
revoke-old / record-new sequence is two independent statements, not an atomic
unit. -/
theorem C2_race_both_refreshes_succeed :
    (refresh_race 5 6 raceState (some raceToken) (some raceToken)).1.isSuccess = true ∧
    (refresh_race 5 6 raceState (some raceToken) (some raceToken)).2.1.isSuccess = true ∧
    (refresh 5 raceState (some raceToken)).1.isSuccess = true ∧
    (refresh 6 (refresh 5 raceState (some raceToken)).2 (some raceToken)).1 =
      RefreshResult.err 401 "REVOKED_TOKEN" := by decide

/-! ## C1: a revoked digest can never be used to refresh again -/

lemma inactive_revoke {H : String} {s : List RefreshRecord} (x : String)
    (h : inactiveHash H s) : inactiveHash H (revoke_refresh_token s x) := by
  intro rec hrec hH
  unfold revoke_refresh_token at hrec
  rcases List.mem_map.1 hrec with ⟨r0, hr0, heq⟩
  by_cases hx : (r0.token_hash == x) = true
  · rw [if_pos hx] at heq
    rw [← heq]
  · rw [if_neg hx] at heq
    rw [← heq] at hH ⊢
    exact h r0 hr0 hH

lemma inactive_create {H h2 : String} {s s2 : List RefreshRecord} {uid : Nat} {e : Int}
    (hc : create_refresh_token s uid h2 e = some s2)
    (h : inactiveHash H s) (hne : h2 ≠ H) : inactiveHash H s2 := by
  unfold create_refresh_token at hc
  split at hc
  · exact absurd hc (by simp)
  · simp only [Option.some.injEq] at hc
    intro rec hrec hH
    rw [← hc] at hrec
    rcases List.mem_append.1 hrec with h1 | h1
    · exact h rec h1 hH
    · rw [List.mem_singleton] at h1
      rw [h1] at hH
      exact absurd hH hne

lemma inactive_filter {H : String} (p : RefreshRecord → Bool) {s : List RefreshRecord}
    (h : inactiveHash H s) : inactiveHash H (s.filter p) :=
  fun rec hrec hH => h rec (List.mem_filter.1 hrec).1 hH

lemma get_refresh_token_of_inactive {H : String} {s : List RefreshRecord}
    (h : inactiveHash H s) : get_refresh_token s H = none := by
  unfold get_refresh_token
  have hf : s.filter (fun r => r.token_hash == H && !r.revoked) = [] := by
    rw [List.filter_eq_nil_iff]
    intro a ha hcon
    simp only [Bool.and_eq_true, beq_iff_eq, Bool.not_eq_true'] at hcon
    have h2 := h a ha hcon.1
    rw [hcon.2] at h2
    exact Bool.false_ne_true h2
  rw [hf]

lemma inactive_create_auth {H : String} {now : Int} {st : AuthState} {user : UserRecord}
    {res : EncodedJwt × EncodedJwt × AuthState}
    (hc : create_auth_response now st user = some res)
    (h : inactiveHash H st.refresh_tokens)
    (hne : (generate_refresh_token now user.id).2 ≠ H) :
    inactiveHash H res.2.2.refresh_tokens := by
  unfold create_auth_response at hc
  dsimp only at hc
  cases hcc : create_refresh_token st.refresh_tokens user.id
      (generate_refresh_token now user.id).2 (now + 2592000) with
  | none => rw [hcc] at hc; exact absurd hc (by simp)
  | some s1 =>
    rw [hcc] at hc
    simp only [Option.some.injEq] at hc
    rw [← hc]
    exact inactive_create hcc h hne

lemma refresh_read_proceed_user {now : Int} {st : AuthState} {tok : EncodedJwt}
    {th : String} {user : UserRecord}
    (h : refresh_read now st (some tok) = RefreshReadOutcome.proceed th user) :
    user.id = tok.payload.user_id := by
  unfold refresh_read at h
  dsimp only at h
  cases hv : verify_refresh_token now tok with
  | error e => rw [hv] at h; exact absurd h (by simp)
  | ok p =>
    rw [hv] at h
    dsimp only at h
    cases hg : get_refresh_token st.refresh_tokens (hash_token tok.toStr) with
    | none => rw [hg] at h; exact absurd h (by simp)
    | some db =>
      rw [hg] at h
      dsimp only at h
      by_cases hr : db.revoked = true
      · rw [if_pos hr] at h; exact absurd h (by simp)
      · rw [if_neg hr] at h
        cases hu : get_user_by_id st.users p.user_id with
        | none => rw [hu] at h; exact absurd h (by simp)
        | some u =>
          rw [hu] at h
          simp only [RefreshReadOutcome.proceed.injEq] at h
          rw [← h.2]
          rw [(get_user_by_id_spec hu).2, verify_refresh_token_ok hv]

lemma inactive_refresh {H : String} {now : Int} {st : AuthState} {cookie : Option EncodedJwt}
    (h : inactiveHash H st.refresh_tokens)
    (hav : stepAvoids H (.refreshStep now cookie)) :
    inactiveHash H (refresh now st cookie).2.refresh_tokens := by
  unfold refresh
  cases cookie with
  | none => exact h
  | some tok =>
    cases hr : refresh_read now st (some tok) with
    | fail res clear => cases clear <;> exact h
    | proceed th user =>
      have huid : user.id = tok.payload.user_id := refresh_read_proceed_user hr
      have hne : (generate_refresh_token now user.id).2 ≠ H := by rw [huid]; exact hav
      unfold refresh_write
      dsimp only
      cases hc : create_refresh_token (revoke_refresh_token st.refresh_tokens th) user.id
          (generate_refresh_token now user.id).2 (now + 2592000) with
      | none => exact inactive_revoke th h
      | some s2 => exact inactive_create hc (inactive_revoke th h) hne

lemma inactive_applyStep {H : String} {st : AuthState} {s : AuthStep}
    (h : inactiveHash H st.refresh_tokens) (hav : stepAvoids H s) :
    inactiveHash H (applyStep st s).refresh_tokens := by
  cases s with
  | loginStep now uid =>
    simp only [applyStep]
    cases hu : get_user_by_id st.users uid with
    | none => exact h
    | some user =>
      show inactiveHash H
        (match create_auth_response now st user with
         | none => st
         | some res => res.2.2).refresh_tokens
      cases hc : create_auth_response now st user with
      | none => exact h
      | some res =>
        have hne : (generate_refresh_token now user.id).2 ≠ H := by
          rw [(get_user_by_id_spec hu).2]
          exact hav
        exact inactive_create_auth hc h hne
  | refreshStep now cookie => exact inactive_refresh h hav
  | logoutStep cookie =>
    simp only [applyStep]
    unfold logout
    cases cookie with
    | none => exact h
    | some tok => exact inactive_revoke _ h
  | statusStep now access rc =>
    have hp := (auth_status_preserves_stores now st access rc).1
    simp only [applyStep]
    rw [hp]
    exact h
  | cleanupStep now =>
    simp only [applyStep]
    exact inactive_filter _ (inactive_filter _ h)

lemma inactive_applySteps {H : String} (steps : List AuthStep) (st : AuthState)
    (h : inactiveHash H st.refresh_tokens)
    (hav : ∀ s ∈ steps, stepAvoids H s) :
    inactiveHash H (applySteps st steps).refresh_tokens := by
  induction steps generalizing st with
  | nil => exact h
  | cons a tl ih =>
    exact ih (applyStep st a) (inactive_applyStep h (hav a (List.mem_cons_self a tl)))
      (fun s hs => hav s (List.mem_cons_of_mem a hs))

/-- C1: once every stored record carrying a refresh credential's digest is
revoked — which is what an earlier successful rotation of that credential or a
Logout presenting it leaves behind — then after any further sequence of
operations (logins, refreshes, logouts, status checks, garbage collection;
with freshly generated credentials never colliding with the old digest, per
SHA-256 collision resistance), a Refresh presenting that raw credential
(still within its JWT validity) fails with 401 REVOKED_TOKEN and leaves the
state unchanged: no new credential pair is recorded. -/
theorem C1_revoked_refresh_always_fails (st : AuthState) (r : EncodedJwt)
    (steps : List AuthStep) (now : Int)
    (hty : r.payload.type = "refresh") (hexp : now < r.payload.exp)
    (hinact : inactiveHash (hash_token r.toStr) st.refresh_tokens)
    (havoid : ∀ s ∈ steps, stepAvoids (hash_token r.toStr) s) :
    refresh now (applySteps st steps) (some r) =
      (RefreshResult.err 401 "REVOKED_TOKEN", applySteps st steps) := by
  have hin := inactive_applySteps steps st hinact havoid
  have hver : verify_refresh_token now r = Except.ok r.payload := by
    unfold verify_refresh_token
    rw [if_neg (show ¬ r.payload.exp ≤ now by omega), if_neg (by simp [hty])]
  simp only [refresh, refresh_read, hver]
  rw [get_refresh_token_of_inactive hin]
  rfl

def witToken : EncodedJwt := (generate_refresh_token 0 1).1

/-- State in which the only record of witToken's digest is revoked (as Logout
leaves it). -/
def witState : AuthState :=
  ⟨[⟨1, hash_token witToken.toStr, 2592000, true, none⟩], [], emptySession⟩

/-- Witness for C1: user 1's credential issued at time 0, its record revoked;
after a further (idempotent) logout step, refreshing with it at time 1 fails
REVOKED_TOKEN and changes nothing. -/
theorem C1_revoked_refresh_always_fails_witness :
    refresh 1 (applySteps witState [AuthStep.logoutStep (some witToken)]) (some witToken) =
      (RefreshResult.err 401 "REVOKED_TOKEN",
        applySteps witState [AuthStep.logoutStep (some witToken)]) :=
  C1_revoked_refresh_always_fails witState witToken [AuthStep.logoutStep (some witToken)] 1
    rfl (by decide) (by decide)
    (by intro s hs; rw [List.mem_singleton] at hs; subst hs; trivial)

/-! ## C7: identity-linker resolution order -/

lemma le_foldr_max (l : List Nat) (a : Nat) (h : a ∈ l) : a ≤ l.foldr max 0 := by
  induction l with
  | nil => cases h
  | cons b tl ih =>
    rcases List.mem_cons.1 h with h1 | h1
    · rw [h1]; exact le_max_left _ _
    · exact le_trans (ih h1) (le_max_right _ _)

lemma user_id_lt_next {users : List UserRecord} {x : UserRecord} (hx : x ∈ users) :
    x.id < next_user_id users := by
  unfold next_user_id
  have hm : x.id ∈ users.map (fun u => u.id) := List.mem_map_of_mem _ hx
  exact Nat.lt_succ_of_le (le_foldr_max _ _ hm)

lemma map_update_noop {uid : Nat} (gid : String) (users : List UserRecord)
    (h : ∀ x ∈ users, x.id ≠ uid) : update_user_oauth users uid gid = users := by
  induction users with
  | nil => rfl
  | cons a tl ih =>
    show ((a :: tl).map fun x => if x.id == uid then { x with google_id := some gid } else x) = a :: tl
    rw [List.map_cons]
    have hne : ¬ (a.id == uid) = true := by
      simp only [beq_iff_eq]
      exact h a (List.mem_cons_self a tl)
    rw [if_neg hne]
    have htl := ih (fun x hx => h x (List.mem_cons_of_mem a hx))
    unfold update_user_oauth at htl
    rw [htl]

lemma map_update_noop_map {uid : Nat} (gid : String) (users : List UserRecord)
    (h : ∀ x ∈ users, x.id ≠ uid) :
    (users.map fun x => if x.id == uid then { x with google_id := some gid } else x) = users :=
  map_update_noop gid users h

lemma filter_gid_update {users : List UserRecord} {uid : Nat} {u : UserRecord} (gid : String)
    (hg : users.filter (fun x => x.google_id == some gid) = [])
    (hid : users.filter (fun x => x.id == uid) = [u]) :
    (update_user_oauth users uid gid).filter (fun x => x.google_id == some gid) =
      [{ u with google_id := some gid }] := by
  induction users with
  | nil => exact absurd hid (by simp)
  | cons a tl ih =>
    have hga : ¬ (a.google_id == some gid) = true := by
      intro hcon
      rw [List.filter_cons, if_pos hcon] at hg
      exact List.cons_ne_nil _ _ hg
    have hgtl : tl.filter (fun x => x.google_id == some gid) = [] := by
      rwa [List.filter_cons, if_neg hga] at hg
    by_cases hida : (a.id == uid) = true
    · rw [List.filter_cons, if_pos hida] at hid
      simp only [List.cons.injEq] at hid
      have htlnil : tl.filter (fun x => x.id == uid) = [] := hid.2
      have hnoop : update_user_oauth tl uid gid = tl := by
        refine map_update_noop gid tl (fun x hx hcon => ?_)
        have : x ∈ tl.filter (fun y => y.id == uid) :=
          List.mem_filter.2 ⟨hx, by simp [hcon]⟩
        rw [htlnil] at this
        cases this
      show ((a :: tl).map fun x => if x.id == uid then { x with google_id := some gid } else x).filter
          (fun x => x.google_id == some gid) = [{ u with google_id := some gid }]
      rw [List.map_cons, if_pos hida]
      have hmap : (tl.map fun x => if x.id == uid then { x with google_id := some gid } else x) = tl := by
        unfold update_user_oauth at hnoop
        exact hnoop
      rw [hmap, List.filter_cons, if_pos (by simp), hgtl, hid.1]
    · rw [List.filter_cons, if_neg hida] at hid
      have htl := ih hgtl hid
      show ((a :: tl).map fun x => if x.id == uid then { x with google_id := some gid } else x).filter
          (fun x => x.google_id == some gid) = [{ u with google_id := some gid }]
      rw [List.map_cons, if_neg hida, List.filter_cons, if_neg hga]
      unfold update_user_oauth at htl
      exact htl

lemma resolve_found_gid {users : List UserRecord} {gid : String} {u : UserRecord}
    (h : users.filter (fun x => x.google_id == some gid) = [u])
    (email : String) (fn : Option String) (pw : String) (il : Option UserRecord) :
    google_resolve users gid email fn pw il = (some u, users) := by
  unfold google_resolve get_user_by_google_id
  rw [h]

/-- C7: the find-or-create resolution of the OAuth callback follows the claimed
order.  (1) An account matching the externalId is returned with the store
unchanged.  (2) Otherwise an account matching the email is linked in place —
no account is added — and resolving the same externalId again afterwards
returns the same account id.  (3) Otherwise a fresh account is created with
the random placeholder password and the externalId attached, and resolving the
same externalId again returns that same account.  (4) If a concurrent
insertion of the same email lands between the email lookup and the create, the
email-uniqueness failure is handled by re-running the email lookup and linking
the interloper instead of failing — still without duplicating the account. -/
theorem C7_identity_linker_resolution (users : List UserRecord) (gid email : String)
    (fn : Option String) (pw : String) (u v : UserRecord) :
    (users.filter (fun x => x.google_id == some gid) = [u] →
      google_resolve users gid email fn pw none = (some u, users)) ∧
    (users.filter (fun x => x.google_id == some gid) = [] →
     users.filter (fun x => x.email == email) = [u] →
     users.filter (fun x => x.id == u.id) = [u] →
      google_resolve users gid email fn pw none = (some u, update_user_oauth users u.id gid) ∧
      (update_user_oauth users u.id gid).length = users.length ∧
      google_resolve (update_user_oauth users u.id gid) gid email fn pw none =
        (some { u with google_id := some gid }, update_user_oauth users u.id gid)) ∧
    (users.filter (fun x => x.google_id == some gid) = [] →
     users.filter (fun x => x.email == email) = [] →
      google_resolve users gid email fn pw none =
        (some ⟨next_user_id users, email, pw, fn, false, some gid, none⟩,
          users ++ [⟨next_user_id users, email, pw, fn, false, some gid, none⟩]) ∧
      google_resolve (users ++ [⟨next_user_id users, email, pw, fn, false, some gid, none⟩])
          gid email fn pw none =
        (some ⟨next_user_id users, email, pw, fn, false, some gid, none⟩,
          users ++ [⟨next_user_id users, email, pw, fn, false, some gid, none⟩])) ∧
    (users.filter (fun x => x.google_id == some gid) = [] →
     users.filter (fun x => x.email == email) = [] →
     v.email = email →
     (∀ x ∈ users, x.id ≠ v.id) →
      google_resolve users gid email fn pw (some v) =
        (some v, users ++ [{ v with google_id := some gid }])) := by
  refine ⟨fun h1 => resolve_found_gid h1 email fn pw none, ?_, ?_, ?_⟩
  · intro hg he hid
    have hgid : get_user_by_google_id users gid = none := by
      unfold get_user_by_google_id; rw [hg]
    have hemail : get_user_by_email users email = some u := by
      unfold get_user_by_email; rw [he]
    refine ⟨?_, ?_, ?_⟩
    · simp only [google_resolve, hgid, hemail]
    · exact List.length_map users _
    · exact resolve_found_gid (filter_gid_update gid hg hid) email fn pw none
  · intro hg he
    have hgid : get_user_by_google_id users gid = none := by
      unfold get_user_by_google_id; rw [hg]
    have hemail : get_user_by_email users email = none := by
      unfold get_user_by_email; rw [he]
    have hne : ∀ x ∈ users, x.id ≠ next_user_id users :=
      fun x hx => Nat.ne_of_lt (user_id_lt_next hx)
    have hnoop : update_user_oauth users (next_user_id users) gid = users :=
      map_update_noop gid users hne
    have hany : (users.any fun x => x.email == email) = false := by
      rw [List.any_eq_false]
      intro x hx
      exact List.filter_eq_nil_iff.1 he x hx
    have hcreate : create_user users email pw fn =
        some (users ++ [⟨next_user_id users, email, pw, fn, false, none, none⟩],
          next_user_id users) := by
      unfold create_user
      rw [hany]
      simp
    have hupd : update_user_oauth
        (users ++ [⟨next_user_id users, email, pw, fn, false, none, none⟩])
        (next_user_id users) gid =
        users ++ [⟨next_user_id users, email, pw, fn, false, some gid, none⟩] := by
      show (users ++ [(⟨next_user_id users, email, pw, fn, false, none, none⟩ : UserRecord)]).map
          (fun x => if x.id == next_user_id users then { x with google_id := some gid } else x) =
        users ++ [⟨next_user_id users, email, pw, fn, false, some gid, none⟩]
      rw [List.map_append, map_update_noop_map gid users hne]
      simp
    have hidf : users.filter (fun x => x.id == next_user_id users) = [] := by
      rw [List.filter_eq_nil_iff]
      intro x hx
      simp only [beq_iff_eq]
      exact hne x hx
    have hget : get_user_by_id
        (users ++ [⟨next_user_id users, email, pw, fn, false, some gid, none⟩])
        (next_user_id users) =
        some ⟨next_user_id users, email, pw, fn, false, some gid, none⟩ := by
      unfold get_user_by_id
      rw [List.filter_append, hidf]
      simp
    have hfinal : (users ++ [(⟨next_user_id users, email, pw, fn, false, some gid, none⟩ : UserRecord)]).filter
        (fun x => x.google_id == some gid) =
        [⟨next_user_id users, email, pw, fn, false, some gid, none⟩] := by
      rw [List.filter_append, hg]
      simp
    refine ⟨?_, resolve_found_gid hfinal email fn pw none⟩
    simp only [google_resolve, hgid, hemail, List.append_nil, hcreate, hupd, hget]
  · intro hg he hvemail hvid
    have hgid : get_user_by_google_id users gid = none := by
      unfold get_user_by_google_id; rw [hg]
    have hemail : get_user_by_email users email = none := by
      unfold get_user_by_email; rw [he]
    have hany1 : ((users ++ [v]).any fun x => x.email == email) = true := by
      rw [List.any_eq_true]
      exact ⟨v, List.mem_append_right _ (List.mem_singleton_self v), by simp [hvemail]⟩
    have hcreate1 : create_user (users ++ [v]) email pw fn = none := by
      unfold create_user
      rw [hany1]
      simp
    have hemail1 : get_user_by_email (users ++ [v]) email = some v := by
      unfold get_user_by_email
      rw [List.filter_append, he]
      simp [hvemail]
    have hupd1 : update_user_oauth (users ++ [v]) v.id gid =
        users ++ [{ v with google_id := some gid }] := by
      show (users ++ ([v] : List UserRecord)).map
          (fun x => if x.id == v.id then { x with google_id := some gid } else x) =
        users ++ [{ v with google_id := some gid }]
      rw [List.map_append, map_update_noop_map gid users hvid]
      simp
    simp only [google_resolve, hgid, hemail, hcreate1, hemail1, hupd1]

/-- Witness for C7: store with user 1 linked to another provider id and user 2
holding a password account for the email being resolved; resolving attaches
the new external id to user 2 in place, and resolving again returns the same
account id 2. -/
theorem C7_identity_linker_resolution_witness :
    google_resolve [⟨1, "x@y", "h1", none, false, some "g1", none⟩,
        ⟨2, "a@b", "h2", none, false, none, none⟩] "g2" "a@b" none "pw" none =
      (some ⟨2, "a@b", "h2", none, false, none, none⟩,
        update_user_oauth [⟨1, "x@y", "h1", none, false, some "g1", none⟩,
          ⟨2, "a@b", "h2", none, false, none, none⟩] 2 "g2") ∧
    (update_user_oauth [⟨1, "x@y", "h1", none, false, some "g1", none⟩,
        ⟨2, "a@b", "h2", none, false, none, none⟩] 2 "g2").length =
      ([⟨1, "x@y", "h1", none, false, some "g1", none⟩,
        ⟨2, "a@b", "h2", none, false, none, none⟩] : List UserRecord).length ∧
    google_resolve (update_user_oauth [⟨1, "x@y", "h1", none, false, some "g1", none⟩,
        ⟨2, "a@b", "h2", none, false, none, none⟩] 2 "g2") "g2" "a@b" none "pw" none =
      (some ⟨2, "a@b", "h2", none, false, some "g2", none⟩,
        update_user_oauth [⟨1, "x@y", "h1", none, false, some "g1", none⟩,
          ⟨2, "a@b", "h2", none, false, none, none⟩] 2 "g2") :=
  (C7_identity_linker_resolution
    [⟨1, "x@y", "h1", none, false, some "g1", none⟩,
     ⟨2, "a@b", "h2", none, false, none, none⟩]
    "g2" "a@b" none "pw"
    ⟨2, "a@b", "h2", none, false, none, none⟩
    ⟨3, "a@b", "h3", none, false, none, none⟩).2.1 (by decide) (by decide) (by decide)
